import Mathlib

/-!
Verification development for the `web-scrapping` repository
(`scraper.py`, `app.py`, `scrap.py`).

The development shallowly embeds the crawl/extraction pipeline:

* markup is modelled as a DOM tree (`Node` / `NodeList`), standing for the
  tree BeautifulSoup produces from an HTML string;
* pandas `DataFrame`s are modelled as a column list plus positional rows of
  string-or-null values; `pd.concat`, `pd.read_html` and
  `pd.DataFrame(list-of-dicts)` are modelled by executable functions that
  follow the documented pandas behaviour;
* the network is modelled by explicit oracles: an HTTP response is an
  `Except` value (an `Except.error` stands for a raised `requests`
  exception), and a crawl environment maps a URL to the fetched, parsed
  markup (an `Except.error` stands for a propagated fetch exception);
* Python functions raising exceptions are embedded as `Except`-returning
  functions.

Definitions named after the Python functions (`can_fetch_robots`,
`detect_captcha_from_html`, `scrape_with_requests`, `extract_by_selector`,
`auto_extract`, `find_next_page_url`, `multi_page_scrape`, `app_run`) are
translated from the source; definitions whose name ends in `Spec` restate
the specification's words and are proved equal to the source translation.
-/

/-! ## Character/string helpers (executable models of Python `str` ops) -/

/-- Lower-case a single ASCII character (model of Python `str.lower` per char). -/
def lowChar (c : Char) : Char :=
  if 65 ≤ c.toNat ∧ c.toNat ≤ 90 then Char.ofNat (c.toNat + 32) else c

/-- Model of Python `str.lower` (ASCII case folding suffices for the
robots/captcha keyword scans, which are ASCII). -/
def lowStr (s : String) : String := String.mk (s.toList.map lowChar)

/-- Bool test that `pat` occurs as a contiguous sublist of `l`
(model of Python `in` on strings, over char lists). -/
def isInfixList (pat : List Char) : List Char → Bool
  | [] => pat.isEmpty
  | c :: tl => pat.isPrefixOf (c :: tl) || isInfixList pat tl

/-- Model of Python substring containment `pat in s`. -/
def containsStr (s pat : String) : Bool := isInfixList pat.toList s.toList

/-- Model of Python `str.strip()` (whitespace trimming on both ends). -/
def trimStr (s : String) : String :=
  String.mk (((s.toList.dropWhile (·.isWhitespace)).reverse.dropWhile
    (·.isWhitespace)).reverse)

/-- Join strings with a separator (model of `str.join`). -/
def joinWith (sep : String) : List String → String
  | [] => ""
  | [s] => s
  | s :: s' :: rest => s ++ sep ++ joinWith sep (s' :: rest)

/-- Split a char list on whitespace runs into words (model of `str.split()`,
used for the multi-valued `class` attribute). -/
def splitWSAux : List Char → List Char → List String
  | [], acc => if acc.isEmpty then [] else [String.mk acc.reverse]
  | c :: rest, acc =>
    if c.isWhitespace then
      if acc.isEmpty then splitWSAux rest [] else
        String.mk acc.reverse :: splitWSAux rest []
    else splitWSAux rest (c :: acc)

/-- Model of Python `str.split()` with no argument. -/
def splitWS (s : String) : List String := splitWSAux s.toList []

/-! ## DOM model (BeautifulSoup parse tree) -/

mutual
/-- A node of the parsed markup: an element with a tag name, attributes and
children, or a text node. This models the tree BeautifulSoup builds from an
HTML string; parsing itself is not modelled — markup enters the development
already in tree form. -/
inductive Node where
  | elem (tag : String) (attrs : List (String × String)) (children : NodeList)
  | text (s : String)
/-- A list of sibling nodes (mutual with `Node` so that traversals are
structurally recursive and compute by `rfl`/`decide`). -/
inductive NodeList where
  | nil
  | cons (hd : Node) (tl : NodeList)
end

/-- Build a `NodeList` from a `List Node` (for writing concrete documents). -/
def nodesOf : List Node → NodeList
  | [] => NodeList.nil
  | n :: ns => NodeList.cons n (nodesOf ns)

mutual
/-- All element nodes of a subtree in document (preorder) order. -/
def elemsNode : Node → List Node
  | .text _ => []
  | .elem t a c => .elem t a c :: elemsNL c
/-- All element nodes below a sibling list, in document order. -/
def elemsNL : NodeList → List Node
  | .nil => []
  | .cons n ns => elemsNode n ++ elemsNL ns
end

mutual
/-- All raw text fragments of a subtree, in document order. -/
def textsNode : Node → List String
  | .text s => [s]
  | .elem _ _ c => textsNL c
/-- All raw text fragments below a sibling list, in document order. -/
def textsNL : NodeList → List String
  | .nil => []
  | .cons n ns => textsNode n ++ textsNL ns
end

/-- Model of BeautifulSoup `get_text(" ", strip=True)` on one node: strip
each text fragment, drop empties, join with a single space. -/
def getTextNode (n : Node) : String :=
  joinWith " " (((textsNode n).map trimStr).filter (fun s => s != ""))

/-- Model of `soup.get_text(" ", strip=True)` on the whole document. -/
def getTextDoc (doc : NodeList) : String :=
  joinWith " " (((textsNL doc).map trimStr).filter (fun s => s != ""))

/-- The tag name of a node (`none` for text nodes). -/
def tagOf : Node → Option String
  | .elem t _ _ => some t
  | .text _ => none

/-- Attribute lookup on a node (model of `tag.get(name)` / `tag[name]`). -/
def attrOf (n : Node) (key : String) : Option String :=
  match n with
  | .text _ => none
  | .elem _ attrs _ => (attrs.find? (fun p => p.1 == key)).map (·.2)

/-- Whether the node carries the attribute at all (model of the BeautifulSoup
`attr=True` filter, which matches mere presence). -/
def hasAttr (n : Node) (key : String) : Bool := (attrOf n key).isSome

/-- The whitespace-separated tokens of the `class` attribute (BeautifulSoup
treats `class` as a multi-valued attribute). -/
def classTokens (n : Node) : List String := splitWS ((attrOf n "class").getD "")

/-- Model of BeautifulSoup `tag.string`: the string of a text node, the
string of a sole child, otherwise `none`. -/
def nodeStr : Node → Option String
  | .text s => some s
  | .elem _ _ (NodeList.cons c NodeList.nil) => nodeStr c
  | .elem _ _ _ => none

/-! ## CSS selector model

The selectors the source uses are unions (comma) of simple selectors built
from a tag name, a class requirement and an attribute-substring requirement
(`iframe[src*='recaptcha']`, `div.g-recaptcha`, plain tags, …).  A selector
is embedded as a list of such simple selectors. -/

/-- One simple CSS selector: optional tag name, optional required class
token, optional `[attr*='sub']` attribute-substring condition. -/
structure SimpleSel where
  tag : Option String
  cls : Option String
  attrHas : Option (String × String)
deriving Repr

/-- A CSS selector string: a comma-separated union of simple selectors. -/
abbrev CssSel := List SimpleSel

/-- Whether an element node matches one simple selector. -/
def matchesSimple (s : SimpleSel) (n : Node) : Bool :=
  (match s.tag with
   | some t => tagOf n == some t
   | none => (tagOf n).isSome) &&
  (match s.cls with
   | some c => (classTokens n).contains c
   | none => true) &&
  (match s.attrHas with
   | some (k, sub) =>
     match attrOf n k with
     | some v => containsStr v sub
     | none => false
   | none => true)

/-- Model of `soup.select(selector)`: the document-order list of element
nodes matching any alternative of the selector. -/
def selectDoc (doc : NodeList) (sel : CssSel) : List Node :=
  (elemsNL doc).filter (fun n => sel.any (fun s => matchesSimple s n))

/-! ## DataFrame model (pandas) -/

/-- A cell value: a string, or null (pandas `NaN`). -/
inductive Value where
  | str (s : String)
  | null
deriving DecidableEq, Repr

/-- Model of a pandas `DataFrame`: named columns plus positional rows.
A row shorter than the column list reads as null in the missing positions. -/
structure DataFrame where
  columns : List String
  rows : List (List Value)
deriving DecidableEq, Repr

/-- Model of `pd.DataFrame()` (no columns, no rows). -/
def DataFrame.empty : DataFrame := ⟨[], []⟩

/-- Model of the pandas `df.empty` property: true iff either axis is empty. -/
def DataFrame.isEmptyDf (d : DataFrame) : Bool :=
  d.rows.isEmpty || d.columns.isEmpty

/-- Positional lookup of column `c` in a row laid out along `cols`;
missing entries read as null. -/
def lookupVal : List String → List Value → String → Value
  | [], _, _ => Value.null
  | _ :: _, [], _ => Value.null
  | c' :: cs, v :: vs, c => if c' == c then v else lookupVal cs vs c

/-- Append the unseen elements of `cs` to `acc` (first-appearance order). -/
def addCols (acc cs : List String) : List String :=
  acc ++ cs.filter (fun c => !acc.contains c)

/-- First-appearance-order union of several column lists (how pandas aligns
columns when concatenating frames with differing schemas). -/
def unionColsList (l : List (List String)) : List String := l.foldl addCols []

/-- Model of `pd.concat(dfs, ignore_index=True)`: fails (raises) exactly on
an empty input list; otherwise aligns every frame to the first-appearance
union of the column lists, filling missing entries with null. -/
def pd_concat (dfs : List DataFrame) : Except String DataFrame :=
  match dfs with
  | [] => Except.error "No objects to concatenate"
  | _ :: _ =>
    let u := unionColsList (dfs.map (·.columns))
    Except.ok ⟨u, dfs.flatMap (fun d =>
      d.rows.map (fun r => u.map (fun c => lookupVal d.columns r c)))⟩

/-- `pd_concat` for call sites where the source cannot raise (the list is
known non-empty there); on the unreachable empty list it gives the empty
frame. -/
def pdConcatOrEmpty (dfs : List DataFrame) : DataFrame :=
  match pd_concat dfs with
  | Except.ok d => d
  | Except.error _ => DataFrame.empty

/-- A record as Python builds it: an ordered dict of field/value pairs. -/
abbrev Record := List (String × Value)

/-- Association lookup in a record, null when the key is absent. -/
def lookupRec : Record → String → Value
  | [], _ => Value.null
  | (k, v) :: rest, c => if k == c then v else lookupRec rest c

/-- Model of `pd.DataFrame(records)` on a list of dicts: columns are the
keys in first-appearance order; each row is aligned to them, missing keys
reading as null. -/
def dfOfRecords (recs : List Record) : DataFrame :=
  let cols := unionColsList (recs.map (fun r => r.map (·.1)))
  ⟨cols, recs.map (fun r => cols.map (fun c => lookupRec r c))⟩

/-- Model of `df.insert(0, name, value)` with a scalar value. -/
def insertCol0 (name : String) (v : Value) (d : DataFrame) : DataFrame :=
  ⟨name :: d.columns, d.rows.map (fun r => v :: r)⟩

/-! ## Table extraction model (`pd.read_html`) -/

/-- Whether a node is a `<table>` element. -/
def isTableNode (n : Node) : Bool := tagOf n == some "table"

/-- All `<table>` elements of the document, in document order. -/
def tableElems (doc : NodeList) : List Node := (elemsNL doc).filter isTableNode

/-- The `<tr>` rows inside one table subtree, in document order. -/
def tableRowsOf (t : Node) : List Node :=
  (elemsNode t).filter (fun n => tagOf n == some "tr")

/-- The `<td>`/`<th>` cells inside one row subtree, in document order. -/
def rowCellsOf (tr : Node) : List Node :=
  (elemsNode tr).filter (fun n => tagOf n == some "td" || tagOf n == some "th")

/-- Whether a row carries a `<th>` cell (pandas then reads it as a header). -/
def rowHasHeaderCell (tr : Node) : Bool :=
  (rowCellsOf tr).any (fun c => tagOf c == some "th")

/-- Align a row to `n` cells, reading missing cells as null. -/
def padRow (n : Nat) (vs : List Value) : List Value :=
  vs.take n ++ List.replicate (n - vs.length) Value.null

/-- Column labels `"0", "1", …` that pandas assigns when a table has no
header row. -/
def natColNames (n : Nat) : List String := (List.range n).map toString

/-- Model of how `pd.read_html` turns one `<table>` element into a frame:
a leading `<th>` row becomes the header, otherwise columns are numbered;
the remaining rows become string cells, padded with null. -/
def tableToDf (t : Node) : DataFrame :=
  match tableRowsOf t with
  | [] => DataFrame.empty
  | r0 :: rest =>
    let cells0 := (rowCellsOf r0).map getTextNode
    let w := cells0.length
    if rowHasHeaderCell r0 then
      ⟨cells0, rest.map (fun r => padRow w ((rowCellsOf r).map (fun c => Value.str (getTextNode c))))⟩
    else
      ⟨natColNames w, (r0 :: rest).map (fun r => padRow w ((rowCellsOf r).map (fun c => Value.str (getTextNode c))))⟩

/-- Model of `pd.read_html(str(soup))`: raises (`Except.error`) exactly when
the document holds no table, otherwise the list of all tables as frames, in
document order. -/
def pd_read_html (doc : NodeList) : Except String (List DataFrame) :=
  let ts := tableElems doc
  if ts.isEmpty then Except.error "No tables found"
  else Except.ok (ts.map tableToDf)

/-! ## URL resolution model (`urllib.parse.urljoin`) -/

/-- Split a char list at the first `"://"` marker: everything before plus
the marker, and the rest. -/
def splitSchemeMarker : List Char → Option (List Char × List Char)
  | [] => none
  | c :: rest =>
    if c = ':' ∧ rest.take 2 = ['/', '/'] then some ([':', '/', '/'], rest.drop 2)
    else
      match splitSchemeMarker rest with
      | some (pre, post) => some (c :: pre, post)
      | none => none

/-- The `scheme://host` part of a URL (empty when no scheme marker). -/
def originOf (u : String) : String :=
  match splitSchemeMarker u.toList with
  | none => ""
  | some (pre, post) => String.mk (pre ++ post.takeWhile (· ≠ '/'))

/-- The chars of a path up to and including the last `'/'`. -/
def upToLastSlash (cs : List Char) : List Char :=
  ((cs.reverse).dropWhile (· ≠ '/')).reverse

/-- Model of `urllib.parse.urljoin(base, href)` for the cases the scraper
meets: absolute hrefs pass through, root-relative hrefs attach to the
origin, other hrefs replace the last path segment of the base. -/
def urljoin (base href : String) : String :=
  if href = "" then base
  else if containsStr href "://" then href
  else
    let o := originOf base
    if ['/'].isPrefixOf href.toList then o ++ href
    else
      let pathPart := base.toList.drop o.length
      let d := upToLastSlash pathPart
      if d.isEmpty then o ++ "/" ++ href
      else o ++ String.mk d ++ href

/-! ## `scraper.py` — policy gate, challenge detector, fetch strategies -/

/-- Embedding of `scraper.py can_fetch_robots(url, user_agent)`.  The
network is explicit: `resp` is the outcome of
`requests.get(f"{scheme}://{netloc}/robots.txt", timeout=15)` —
`Except.error` models a raised exception, `Except.ok (status, body)` a
response.  Returns the `(allowed, reason)` pair of the source. -/
def can_fetch_robots (resp : Except String (Nat × String)) (user_agent : String) :
    Bool × String :=
  match resp with
  | Except.error e => (true, "robots.txt tidak bisa diambil: " ++ e)
  | Except.ok (status, body) =>
    if status ≠ 200 then (true, "robots.txt tidak tersedia/200")
    else
      let text := lowStr body
      if containsStr text "disallow: /" &&
          (containsStr text "user-agent: *" ||
           containsStr text ("user-agent: " ++ lowStr user_agent)) then
        (false, "Disallow: / untuk user-agent")
      else (true, "allowed")

/-- The widget selector of `detect_captcha_from_html`:
`iframe[src*='recaptcha'], div.g-recaptcha, div.h-captcha, iframe[src*='hcaptcha']`. -/
def captchaWidgetSel : CssSel :=
  [⟨some "iframe", none, some ("src", "recaptcha")⟩,
   ⟨some "div", some "g-recaptcha", none⟩,
   ⟨some "div", some "h-captcha", none⟩,
   ⟨some "iframe", none, some ("src", "hcaptcha")⟩]

/-- The human-verification keyword list of `detect_captcha_from_html`. -/
def captchaKeywords : List String :=
  ["captcha", "verify you are human", "are you a robot", "press and hold",
   "cloudflare verify"]

/-- Embedding of `scraper.py detect_captcha_from_html(html)`.  The argument
is the parsed markup; `NodeList.nil` models the falsy (empty) HTML string
short-circuited by `if not html`. -/
def detect_captcha_from_html (html : NodeList) : Bool :=
  match html with
  | NodeList.nil => false
  | NodeList.cons _ _ =>
    if !(selectDoc html captchaWidgetSel).isEmpty then true
    else if captchaKeywords.any (fun k => containsStr (lowStr (getTextDoc html)) k) then true
    else false

/-- Embedding of `scraper.py scrape_with_requests(url, headers, timeout)`.
`resp` is the outcome of `requests.get`; `resp.raise_for_status()` raises
`HTTPError` exactly for status codes in `[400, 600)`, and the raised error
propagates (no handler in the source). -/
def scrape_with_requests (resp : Except String (Nat × String)) :
    Except String String :=
  match resp with
  | Except.error e => Except.error e
  | Except.ok (status, body) =>
    if 400 ≤ status ∧ status < 600 then
      Except.error ("HTTP Error " ++ toString status)
    else Except.ok body

/-- Embedding of `scraper.py _scrape_with_playwright_async` (and its sync
wrapper `scrape_with_playwright`).  `navigation` is the outcome of the
browser session (`page.goto` + settle + `page.content()`); the source has
no exception handler around it, so a navigation/render failure propagates
to the caller unchanged. -/
def scrape_with_playwright_async (navigation : Except String String) :
    Except String String :=
  match navigation with
  | Except.ok markup => Except.ok markup
  | Except.error e => Except.error e

/-- Embedding of `scrap.py scrape_with_playwright` (the demo module): the
`try/except` around `page.goto`/`page.content()` converts any failure into
a synthetic placeholder markup string embedding the failure text, so this
variant always returns markup and never raises. -/
def scrap_scrape_with_playwright (navigation : Except String String) : String :=
  match navigation with
  | Except.ok markup => markup
  | Except.error e =>
    "<html><body><h1>Error with Playwright: " ++ e ++ "</h1></body></html>"

/-! ## `scraper.py` — extraction -/

/-- Embedding of `scraper.py extract_by_selector(html, selector)`. -/
def extract_by_selector (html : NodeList) (selector : CssSel) : DataFrame :=
  let nodes := selectDoc html selector
  if nodes.isEmpty then DataFrame.empty
  else if nodes.any isTableNode then
    match pd_read_html html with
    | Except.ok tables =>
      -- the source copies `tables` into `matched_tables` without any
      -- filtering, so the match branch concatenates every document table
      let matched_tables := tables
      if !matched_tables.isEmpty then pdConcatOrEmpty matched_tables
      else if !tables.isEmpty then pdConcatOrEmpty tables
      else DataFrame.empty
    | Except.error _ =>
      -- unreachable: a selected node is a table, so the document has one
      DataFrame.empty
  else
    dfOfRecords (nodes.filterMap (fun n =>
      let txt := getTextNode n
      if txt = "" then none else some [("text", Value.str txt)]))

/-- The heading records `auto_extract` collects
(`soup.find_all(["h1","h2","h3"])`, dropping empty text). -/
def headingRecords (html : NodeList) : List Record :=
  ((elemsNL html).filter (fun n =>
      tagOf n == some "h1" || tagOf n == some "h2" || tagOf n == some "h3")).filterMap
    (fun tag =>
      let t := getTextNode tag
      if t = "" then none
      else some [("type", Value.str ((tagOf tag).getD "")), ("content", Value.str t)])

/-- The paragraph records `auto_extract` collects (`soup.find_all("p")`,
dropping empty text). -/
def paragraphRecords (html : NodeList) : List Record :=
  ((elemsNL html).filter (fun n => tagOf n == some "p")).filterMap
    (fun p =>
      let t := getTextNode p
      if t = "" then none else some [("type", Value.str "p"), ("content", Value.str t)])

/-- The link records `auto_extract` collects (`soup.find_all("a", href=True)`;
every such anchor is kept, even with empty visible text). -/
def linkRecords (html : NodeList) (base_url : Option String) : List Record :=
  ((elemsNL html).filter (fun n => tagOf n == some "a" && hasAttr n "href")).map
    (fun a =>
      let txt := getTextNode a
      let href := (attrOf a "href").getD ""
      let absUrl := match base_url with
        | some b => urljoin b href
        | none => href
      [("type", Value.str "a"), ("text", Value.str txt), ("href", Value.str absUrl)])

/-- Embedding of `scraper.py auto_extract(html, base_url)`: the
`try: pd.read_html … except: pass` wraps the table attempt; catching the
error falls through to the heading/paragraph/link collection. -/
def auto_extract (html : NodeList) (base_url : Option String) : DataFrame :=
  match pd_read_html html with
  | Except.ok tables =>
    if !tables.isEmpty then pdConcatOrEmpty tables
    else dfOfRecords (headingRecords html ++ paragraphRecords html ++ linkRecords html base_url)
  | Except.error _ =>
    dfOfRecords (headingRecords html ++ paragraphRecords html ++ linkRecords html base_url)

/-! ## `scraper.py` — pagination -/

/-- Whether a string matches `re.compile(r"(next|older|berikutnya|lanjut)", re.I)`
under `re.search` semantics (case-insensitive substring). -/
def matchesNextPat (s : String) : Bool :=
  let l := lowStr s
  containsStr l "next" || containsStr l "older" ||
    containsStr l "berikutnya" || containsStr l "lanjut"

/-- First candidate anchor with a truthy (present and non-empty) `href`,
as the source's `for a in candidates: if href: return …` loop. -/
def firstTruthyHref : List Node → Option String
  | [] => none
  | a :: rest =>
    match attrOf a "href" with
    | some h => if h = "" then firstTruthyHref rest else some h
    | none => firstTruthyHref rest

/-- Embedding of `scraper.py _find_next_page_url(html, current_url)`. -/
def find_next_page_url (html : NodeList) (current_url : String) : Option String :=
  let candidates := (elemsNL html).filter (fun n =>
    tagOf n == some "a" && ((nodeStr n).map matchesNextPat).getD false)
  match firstTruthyHref candidates with
  | some h => some (urljoin current_url h)
  | none =>
    match (elemsNL html).find? (fun n =>
        tagOf n == some "link" &&
        (match attrOf n "rel" with
         | some v => v != "" && containsStr (lowStr v) "next"
         | none => false)) with
    | some l =>
      match attrOf l "href" with
      | some h => if h = "" then none else some (urljoin current_url h)
      | none => none
    | none => none

/-! ## `scraper.py` — the crawl loop (`multi_page_scrape`)

The fetch strategy (`scrape_with_playwright` or `scrape_with_requests`,
markup parsing included) is abstracted into an environment
`env : String → Except String NodeList`; an `Except.error` models a
propagated fetch exception.  The politeness `time.sleep(delay)` has no
observable effect in the model and is omitted; the `headers`, `headless`
and `user_agent` parameters only feed the fetch strategy and are absorbed
into `env`. -/

/-- The crawl parameters of `multi_page_scrape` that steer control flow. -/
structure CrawlConfig where
  max_pages : Nat
  selector : Option CssSel
  follow_pagination : Bool

/-- One page's extraction step of `multi_page_scrape`: selector-driven
extraction when a selector is configured, with automatic fallback to
`auto_extract` when it comes back empty. -/
def extractPage (sel : Option CssSel) (html : NodeList) (current : String) : DataFrame :=
  match sel with
  | some s =>
    let df := extract_by_selector html s
    if df.isEmptyDf then auto_extract html (some current) else df
  | none => auto_extract html (some current)

/-- The `for i in range(max_pages)` loop of `multi_page_scrape`, with the
fuel as the remaining iteration count.  Returns the list of fetched URLs
(the trace, in order) alongside either a propagated fetch error or the
accumulated non-empty page batches. -/
def crawlLoop (env : String → Except String NodeList) (cfg : CrawlConfig) :
    Nat → String → List DataFrame → List String × Except String (List DataFrame)
  | 0, _, dfs => ([], Except.ok dfs)
  | n + 1, current, dfs =>
    match env current with
    | Except.error e => ([current], Except.error e)
    | Except.ok html =>
      if detect_captcha_from_html html then ([current], Except.ok dfs)
      else
        let df := extractPage cfg.selector html current
        let dfs' := if df.isEmptyDf then dfs
          else dfs ++ [insertCol0 "_source_url" (Value.str current) df]
        if !cfg.follow_pagination then ([current], Except.ok dfs')
        else
          match find_next_page_url html current with
          | none => ([current], Except.ok dfs')
          | some nxt =>
            if nxt = current then ([current], Except.ok dfs')
            else
              let rest := crawlLoop env cfg n nxt dfs'
              (current :: rest.1, rest.2)

/-- The final result assembly of `multi_page_scrape`: empty frame when
nothing was collected, otherwise `pd.concat` with the unmerged batch list
as the `except`-branch fallback. -/
def mergeResult (dfs : List DataFrame) : DataFrame ⊕ List DataFrame :=
  if dfs.isEmpty then Sum.inl DataFrame.empty
  else
    match pd_concat dfs with
    | Except.ok merged => Sum.inl merged
    | Except.error _ => Sum.inr dfs

/-- Embedding of `scraper.py multi_page_scrape`: run the loop from the seed
URL, then assemble; a fetch exception propagates out of the whole crawl. -/
def multi_page_scrape (env : String → Except String NodeList) (cfg : CrawlConfig)
    (url : String) : Except String (DataFrame ⊕ List DataFrame) :=
  match (crawlLoop env cfg cfg.max_pages url []).2 with
  | Except.error e => Except.error e
  | Except.ok dfs => Except.ok (mergeResult dfs)

/-- The URLs `multi_page_scrape` fetches, in order (its page-fetch trace). -/
def crawlTrace (env : String → Except String NodeList) (cfg : CrawlConfig)
    (url : String) : List String :=
  (crawlLoop env cfg cfg.max_pages url []).1

/-- The batch list `multi_page_scrape` accumulates before merging. -/
def crawlCollected (env : String → Except String NodeList) (cfg : CrawlConfig)
    (url : String) : Except String (List DataFrame) :=
  (crawlLoop env cfg cfg.max_pages url []).2

/-! ## `app.py` — the UI driver around the crawl -/

/-- An observable action of the `app.py` flow: one robots-policy check or
one page fetch. -/
inductive Event where
  | policy
  | fetchPage (url : String)
deriving DecidableEq, Repr

/-- How the `app.py` run ends. -/
inductive AppOutcome where
  | emptyUrlStop
  | blocked (reason : String)
  | fetchFailed (e : String)
  | captchaStop
  | finished (r : DataFrame ⊕ List DataFrame)
deriving DecidableEq, Repr

/-- The batches contained in the surfaced result (empty whenever the run
stopped before producing a crawl result). -/
def AppOutcome.resultBatches : AppOutcome → List DataFrame
  | .finished (Sum.inl df) => if df.isEmptyDf then [] else [df]
  | .finished (Sum.inr dfs) => dfs
  | _ => []

/-- The external world as `app.py` sees it: the robots.txt response and the
per-URL fetched markup. -/
structure AppEnv where
  robotsResp : Except String (Nat × String)
  page : String → Except String NodeList

/-- Embedding of the `app.py` start-button flow: blank-URL guard, one
`can_fetch_robots` check (abort on disallow), one first-page fetch with a
`detect_captcha_from_html` check, then `multi_page_scrape`.  Returns the
event trace together with the outcome. -/
def app_run (env : AppEnv) (cfg : CrawlConfig) (url user_agent : String) :
    List Event × AppOutcome :=
  if trimStr url = "" then ([], AppOutcome.emptyUrlStop)
  else
    let decision := can_fetch_robots env.robotsResp user_agent
    if !decision.1 then ([Event.policy], AppOutcome.blocked decision.2)
    else
      match env.page url with
      | Except.error e => ([Event.policy, Event.fetchPage url], AppOutcome.fetchFailed e)
      | Except.ok html =>
        if detect_captcha_from_html html then
          ([Event.policy, Event.fetchPage url], AppOutcome.captchaStop)
        else
          let run := crawlLoop env.page cfg cfg.max_pages url []
          (Event.policy :: Event.fetchPage url :: run.1.map Event.fetchPage,
           match run.2 with
           | Except.error e => AppOutcome.fetchFailed e
           | Except.ok dfs => AppOutcome.finished (mergeResult dfs))

/-! ## Auxiliary observations used by the theorems -/

/-- Whether an `Except` computation models a raised exception. -/
def exceptIsError {α : Type} : Except String α → Bool
  | Except.error _ => true
  | Except.ok _ => false

/-- Whether the page the environment serves for `u` trips the challenge
detector (false when fetching `u` raises instead). -/
def captchaAt (env : String → Except String NodeList) (u : String) : Bool :=
  match env u with
  | Except.ok html => detect_captcha_from_html html
  | Except.error _ => false

/-- The batch one crawl iteration at URL `u` contributes: the extracted
frame with `_source_url` prepended, or nothing when the extraction is empty
(or the fetch raises). -/
def pageBatch (env : String → Except String NodeList) (sel : Option CssSel)
    (u : String) : Option DataFrame :=
  match env u with
  | Except.error _ => none
  | Except.ok html =>
    let df := extractPage sel html u
    if df.isEmptyDf then none else some (insertCol0 "_source_url" (Value.str u) df)

/-! ## Specification-side restatements

These definitions follow the words of the specification (§4.4) rather than
the source text; the claim theorems prove them equal to the translations
above. -/

/-- Restatement of the spec for selector-driven extraction: no match gives
an empty batch; a matched tabular node gives the concatenation of all
tables of the whole document (selector scoping lost); otherwise one record
per matched node with a single normalized `text` field, empty-text nodes
dropped. -/
def extractBySelectorSpec (html : NodeList) (selector : CssSel) : DataFrame :=
  let matched := selectDoc html selector
  if matched.isEmpty then DataFrame.empty
  else if matched.any isTableNode then
    pdConcatOrEmpty ((tableElems html).map tableToDf)
  else
    dfOfRecords (matched.filterMap (fun n =>
      let txt := getTextNode n
      if txt = "" then none else some [("text", Value.str txt)]))

/-- Restatement of the spec for the headings auto-extraction collects:
every heading of levels 1–3 in document order as
`{type: heading-level, content: text}`, dropping empty-text nodes. -/
def headingRecordsSpec (html : NodeList) : List Record :=
  (elemsNL html).filterMap (fun n =>
    match tagOf n with
    | some t =>
      if t = "h1" ∨ t = "h2" ∨ t = "h3" then
        if getTextNode n = "" then none
        else some [("type", Value.str t), ("content", Value.str (getTextNode n))]
      else none
    | none => none)

/-- Restatement of the spec for the paragraphs auto-extraction collects:
every paragraph in document order as `{type: "p", content: text}`, dropping
empty-text nodes. -/
def paragraphRecordsSpec (html : NodeList) : List Record :=
  (elemsNL html).filterMap (fun n =>
    if tagOf n = some "p" then
      if getTextNode n = "" then none
      else some [("type", Value.str "p"), ("content", Value.str (getTextNode n))]
    else none)

/-- Restatement of the spec for the hyperlinks auto-extraction collects:
every anchor carrying an `href`, always included (even with empty visible
text), the target resolved against the base URL when one is given. -/
def linkRecordsSpec (html : NodeList) (base_url : Option String) : List Record :=
  (elemsNL html).filterMap (fun n =>
    if tagOf n = some "a" ∧ (attrOf n "href").isSome then
      some [("type", Value.str "a"), ("text", Value.str (getTextNode n)),
            ("href", Value.str (match base_url with
              | some b => urljoin b ((attrOf n "href").getD "")
              | none => (attrOf n "href").getD ""))]
    else none)

/-- Restatement of the spec for auto-extraction: whole-document table
discovery first — any table present short-circuits to the concatenation of
all tables and nothing else; otherwise headings, then paragraphs, then
links. -/
def autoExtractSpec (html : NodeList) (base_url : Option String) : DataFrame :=
  if (tableElems html).isEmpty then
    dfOfRecords (headingRecordsSpec html ++ paragraphRecordsSpec html ++
      linkRecordsSpec html base_url)
  else pdConcatOrEmpty ((tableElems html).map tableToDf)

/-! ## Concrete data for witnesses and counterexamples -/

/-- A crawl configuration with three pages, no selector, pagination on. -/
def cfg3 : CrawlConfig := ⟨3, none, true⟩

/-- An app environment whose robots.txt blanket-disallows every agent and
whose page fetches fail (they are never reached). -/
def c1Env : AppEnv :=
  ⟨Except.ok (200, "user-agent: *" ++ "\n" ++ "disallow: /"),
   fun _ => Except.error "network down"⟩

/-- Page 1 of the C3 counterexample crawl: only a `rel=next` pagination
hint, so auto-extraction finds nothing (no table, heading, paragraph or
anchor) and the page contributes no batch. -/
def c3Page1 : NodeList :=
  nodesOf [Node.elem "link" [("rel", "next"), ("href", "http://x/p2")] NodeList.nil]

/-- Page 2 of the C3 counterexample crawl: a reCAPTCHA container. -/
def c3Page2 : NodeList :=
  nodesOf [Node.elem "div" [("class", "g-recaptcha")] NodeList.nil]

/-- The C3 counterexample environment: page 1 is batch-less but paginates
to page 2, which trips the challenge detector. -/
def c3Env : String → Except String NodeList := fun u =>
  if u = "http://x/p1" then Except.ok c3Page1
  else if u = "http://x/p2" then Except.ok c3Page2
  else Except.error "unreachable"

/-- Page 1 of the C3 witness crawl: a heading, a paragraph and a `Next`
anchor, so the page contributes a non-empty batch and paginates. -/
def wPage1 : NodeList := nodesOf
  [Node.elem "h1" [] (nodesOf [Node.text "Title"]),
   Node.elem "p" [] (nodesOf [Node.text "hello"]),
   Node.elem "a" [("href", "http://x/p2")] (nodesOf [Node.text "Next"])]

/-- The C3 witness environment: one content page, then a challenge page. -/
def wEnv : String → Except String NodeList := fun u =>
  if u = "http://x/p1" then Except.ok wPage1
  else if u = "http://x/p2" then Except.ok c3Page2
  else Except.error "unreachable"

/-- A crawl environment in which every fetch raises (C4 witness). -/
def c4Env : String → Except String NodeList := fun _ => Except.error "HTTP Error 404"

/-- A one-column, one-row frame with column `x` (C10 witness). -/
def w10a : DataFrame := ⟨["x"], [[Value.str "1"]]⟩

/-- A one-column, one-row frame with column `y` (C10 witness). -/
def w10b : DataFrame := ⟨["y"], [[Value.str "2"]]⟩

/-! ## Helper lemmas -/

/-- Looking up a column absent from the layout yields null (the pandas
missing-field fill). -/
theorem lookupVal_not_mem : ∀ (cols : List String) (r : List Value) (c : String),
    ¬ c ∈ cols → lookupVal cols r c = Value.null := by
  intro cols
  induction cols with
  | nil => intro r c _; cases r <;> rfl
  | cons c' cs ih =>
    intro r c hc
    cases r with
    | nil => rfl
    | cons v vs =>
      have h1 : (c' == c) = false := by
        simp only [beq_eq_false_iff_ne, ne_eq]
        intro h; exact hc (by simp [h])
      simp only [lookupVal, h1, Bool.false_eq_true, if_false]
      exact ih vs c (fun h => hc (List.mem_cons_of_mem _ h))

/-- Prepending the empty accumulator to a column list is the identity. -/
theorem addCols_nil (cs : List String) : addCols [] cs = cs := by
  simp [addCols]

/-- `filterMap` over a `cons`, phrased with `Option.toList`. -/
theorem filterMap_cons_toList {α β : Type} (f : α → Option β) (a : α) (l : List α) :
    List.filterMap f (a :: l) = (f a).toList ++ List.filterMap f l := by
  cases h : f a <;> simp [List.filterMap_cons, h]

/-- Filtering then filter-mapping collapses to one filter-map. -/
theorem filter_filterMap_eq {α β : Type} (p : α → Bool) (f : α → Option β) (l : List α) :
    (l.filter p).filterMap f = l.filterMap (fun x => if p x then f x else none) := by
  induction l with
  | nil => rfl
  | cons x xs ih =>
    by_cases h : p x = true
    · rw [List.filter_cons_of_pos h, List.filterMap_cons, List.filterMap_cons, if_pos h]
      cases f x <;> simp [ih]
    · rw [List.filter_cons_of_neg (by simpa using h), List.filterMap_cons, if_neg h, ih]

/-- Filtering then mapping collapses to one filter-map. -/
theorem map_filter_eq {α β : Type} (p : α → Bool) (f : α → β) (l : List α) :
    (l.filter p).map f = l.filterMap (fun x => if p x then some (f x) else none) := by
  induction l with
  | nil => rfl
  | cons x xs ih =>
    by_cases h : p x = true
    · rw [List.filter_cons_of_pos h, List.map_cons, List.filterMap_cons, if_pos h, ih]
    · rw [List.filter_cons_of_neg (by simpa using h), List.filterMap_cons, if_neg h, ih]

/-! ## Easy claim theorems -/

/-- Claim C2 counterexample: The claim says the rendered-browser fetch
strategy never raises on a navigation/render failure and instead returns a
placeholder markup string.  The strategy the crawl actually uses
(`scraper.py _scrape_with_playwright_async` / `scrape_with_playwright`) has
no exception handler: at a concrete navigation timeout the failure
propagates out as a raised error and no markup string is returned. -/
theorem C2_cex :
    scrape_with_playwright_async (Except.error "Page.goto: Timeout 60000ms exceeded") =
      Except.error "Page.goto: Timeout 60000ms exceeded" ∧
    exceptIsError (scrape_with_playwright_async
      (Except.error "Page.goto: Timeout 60000ms exceeded")) = true :=
  ⟨rfl, rfl⟩

/-- Claim C2 amended: The placeholder-on-failure behaviour belongs to the
demo module's rendered strategy (`scrap.py scrape_with_playwright`): on any
navigation/render failure it returns a synthetic error-placeholder markup
string embedding the failure description (and on success the rendered
markup); being `String`-valued it never raises.  The core module's rendered
strategy (`scraper.py`) instead propagates the failure. -/
theorem C2_amended (e markup : String) :
    scrap_scrape_with_playwright (Except.error e) =
      "<html><body><h1>Error with Playwright: " ++ e ++ "</h1></body></html>" ∧
    scrap_scrape_with_playwright (Except.ok markup) = markup :=
  ⟨rfl, rfl⟩

/-- Claim C4 counterexample: The claim says the static strategy raises on
every non-2xx status.  `raise_for_status` only raises for 4xx/5xx: at the
non-2xx status 304 the body is returned as markup and no error is raised. -/
theorem C4_cex :
    scrape_with_requests (Except.ok (304, "<html></html>")) = Except.ok "<html></html>" ∧
    ¬ (200 ≤ 304 ∧ 304 < 300) :=
  ⟨rfl, by decide⟩

/-- Claim C4 amended: The static fetch strategy raises a propagated
transport error exactly on the 4xx/5xx statuses (`raise_for_status`
semantics), and a propagated fetch error inside a crawl aborts the whole
crawl with that error at that page — the trace stops there, nothing is
skipped-and-continued. -/
theorem C4_amended (s : Nat) (b : String) (env : String → Except String NodeList)
    (cfg : CrawlConfig) (url e : String)
    (henv : env url = Except.error e) (hm : 0 < cfg.max_pages) :
    (exceptIsError (scrape_with_requests (Except.ok (s, b))) = true ↔
      400 ≤ s ∧ s < 600) ∧
    multi_page_scrape env cfg url = Except.error e ∧
    crawlTrace env cfg url = [url] := by
  have hshape : crawlLoop env cfg cfg.max_pages url [] = ([url], Except.error e) := by
    cases hmp : cfg.max_pages with
    | zero => omega
    | succ m => simp [crawlLoop, henv]
  refine ⟨?_, ?_, ?_⟩
  · unfold scrape_with_requests exceptIsError
    by_cases h : 400 ≤ s ∧ s < 600
    · simp [h]
    · simp [h]
  · unfold multi_page_scrape
    rw [hshape]
  · unfold crawlTrace
    rw [hshape]

/-- Claim C4 amended witness: At status 404 the static strategy raises,
and a crawl over an environment whose fetches raise aborts at the seed. -/
theorem C4_amended_witness :
    (exceptIsError (scrape_with_requests (Except.ok (404, "nf"))) = true ↔
      400 ≤ 404 ∧ 404 < 600) ∧
    multi_page_scrape c4Env cfg3 "http://x/p1" = Except.error "HTTP Error 404" ∧
    crawlTrace c4Env cfg3 "http://x/p1" = ["http://x/p1"] :=
  C4_amended 404 "nf" c4Env cfg3 "http://x/p1" "HTTP Error 404" rfl (by decide)

/-- Claim C5: Selector-driven extraction is exactly its specification: an
empty match set gives an empty batch; a match set containing a tabular node
gives the concatenation of all tables of the whole document (selector
scoping is lost); otherwise one record per matched node with a single
normalized `text` field, dropping empty-text nodes. -/
theorem C5_selector_extraction (html : NodeList) (selector : CssSel) :
    extract_by_selector html selector = extractBySelectorSpec html selector := by
  unfold extract_by_selector extractBySelectorSpec pd_read_html
  by_cases h1 : (selectDoc html selector).isEmpty = true
  · simp [h1]
  · simp only [h1, Bool.false_eq_true, if_false]
    by_cases h2 : (selectDoc html selector).any isTableNode = true
    · simp only [h2, if_true]
      by_cases h3 : (tableElems html).isEmpty = true
      · have h3' : tableElems html = [] := List.isEmpty_iff.mp h3
        simp [h3, h3', pdConcatOrEmpty, pd_concat]
      · have h4 : ((tableElems html).map tableToDf).isEmpty = false := by
          cases h5 : tableElems html with
          | nil => exact absurd (by simp [h5]) h3
          | cons a l => simp
        simp [h3, h4]
    · simp [h2]

/-- Claim C10: For two non-empty batches whose column sets merely differ,
the final merge still succeeds: the fallback `Sum.inr` branch is not taken,
and the unified table's column set is the first-appearance union of the two
column sets, each row realigned to it with `lookupVal`, which fills every
column missing from a row's own schema with null. -/
theorem C10_merge_union_nulls (d1 d2 : DataFrame)
    (h1 : d1.rows ≠ []) (h2 : d2.rows ≠ []) (hc : d1.columns ≠ d2.columns) :
    mergeResult [d1, d2] = Sum.inl
      ⟨addCols d1.columns d2.columns,
       d1.rows.map (fun r =>
         (addCols d1.columns d2.columns).map (fun c => lookupVal d1.columns r c)) ++
       d2.rows.map (fun r =>
         (addCols d1.columns d2.columns).map (fun c => lookupVal d2.columns r c))⟩ ∧
    (∀ (cols : List String) (r : List Value) (c : String),
      ¬ c ∈ cols → lookupVal cols r c = Value.null) := by
  constructor
  · unfold mergeResult pd_concat unionColsList
    simp [addCols_nil]
  · exact lookupVal_not_mem

/-- Claim C10 witness: Concrete one-column frames with disjoint columns
merge into the two-column union with nulls in the missing cells. -/
theorem C10_witness :
    mergeResult [w10a, w10b] =
      Sum.inl ⟨["x", "y"], [[Value.str "1", Value.null], [Value.null, Value.str "2"]]⟩ ∧
    lookupVal ["x"] [Value.str "1"] "y" = Value.null := by
  have h := C10_merge_union_nulls w10a w10b (by decide) (by decide) (by decide)
  exact ⟨h.1.trans (by decide), h.2 ["x"] [Value.str "1"] "y" (by decide)⟩

/-- Claim C1: When the policy gate returns allowed=false for the seed URL,
the app flow stops right after that single policy check: the event trace is
exactly one policy check — so the check ran once, before any fetch, and
zero page fetches occurred — the outcome is the blocked refusal carrying
the gate's reason, and the surfaced crawl result is empty (no batches). -/
theorem C1_policy_gate_blocks (env : AppEnv) (cfg : CrawlConfig) (url ua : String)
    (hurl : ¬ trimStr url = "")
    (hdec : (can_fetch_robots env.robotsResp ua).1 = false) :
    (app_run env cfg url ua).1 = [Event.policy] ∧
    (app_run env cfg url ua).2 =
      AppOutcome.blocked (can_fetch_robots env.robotsResp ua).2 ∧
    ((app_run env cfg url ua).2).resultBatches = [] := by
  unfold app_run
  rw [if_neg hurl]
  simp [hdec, AppOutcome.resultBatches]

/-- Claim C1 witness: A robots.txt with a wildcard blanket disallow blocks
the concrete app run after one policy check. -/
theorem C1_witness :
    (app_run c1Env cfg3 "https://example.com/" "UniversalScraper/1.0").1 = [Event.policy] ∧
    (app_run c1Env cfg3 "https://example.com/" "UniversalScraper/1.0").2 =
      AppOutcome.blocked "Disallow: / untuk user-agent" ∧
    ((app_run c1Env cfg3 "https://example.com/" "UniversalScraper/1.0").2).resultBatches = [] := by
  have h := C1_policy_gate_blocks c1Env cfg3 "https://example.com/" "UniversalScraper/1.0"
    (by decide) (by decide)
  exact ⟨h.1, h.2.1.trans (by decide), h.2.2⟩

/-- Claim C8: The policy gate returns allowed=false exactly when the
robots.txt fetch succeeded with status 200 and the body, case-folded,
contains the blanket `disallow: /` directive together with either the
wildcard agent scope or the caller's own agent token; in every other case —
fetch raised, or non-200 status, or no such directive — the decision is
allowed (fail-open), and a non-empty reason string is always recorded. -/
theorem C8_robots_gate (resp : Except String (Nat × String)) (ua : String) :
    ((can_fetch_robots resp ua).1 = false ↔
      ∃ status body, resp = Except.ok (status, body) ∧ status = 200 ∧
        containsStr (lowStr body) "disallow: /" = true ∧
        (containsStr (lowStr body) "user-agent: *" = true ∨
         containsStr (lowStr body) ("user-agent: " ++ lowStr ua) = true)) ∧
    (can_fetch_robots resp ua).2.length ≠ 0 := by
  constructor
  · cases resp with
    | error e => simp [can_fetch_robots]
    | ok p =>
      obtain ⟨s, b⟩ := p
      by_cases hs : s = 200
      · subst hs
        by_cases hcond : (containsStr (lowStr b) "disallow: /" &&
            (containsStr (lowStr b) "user-agent: *" ||
             containsStr (lowStr b) ("user-agent: " ++ lowStr ua))) = true
        · have hres : can_fetch_robots (Except.ok (200, b)) ua =
              (false, "Disallow: / untuk user-agent") := by
            simp only [can_fetch_robots]
            rw [if_neg (by simp), if_pos hcond]
          rw [hres]
          simp only [Bool.and_eq_true, Bool.or_eq_true] at hcond
          constructor
          · intro _
            exact ⟨200, b, rfl, rfl, hcond.1, hcond.2⟩
          · intro _; rfl
        · have hres : can_fetch_robots (Except.ok (200, b)) ua = (true, "allowed") := by
            simp only [can_fetch_robots]
            rw [if_neg (by simp), if_neg hcond]
          rw [hres]
          constructor
          · intro h; exact Bool.noConfusion h
          · rintro ⟨st, bd, heq, hst, hd, hsc⟩
            injection heq with hpair
            injection hpair with h200 hb
            subst hb
            apply absurd _ hcond
            rw [hd, Bool.true_and]
            rcases hsc with h | h <;> simp [h]
      · constructor
        · intro h
          have hres : can_fetch_robots (Except.ok (s, b)) ua =
              (true, "robots.txt tidak tersedia/200") := by
            simp only [can_fetch_robots]
            rw [if_pos hs]
          rw [hres] at h
          exact Bool.noConfusion h
        · rintro ⟨st, bd, heq, hst, _, _⟩
          injection heq with hpair
          injection hpair with h200 hb
          exact absurd (h200.trans hst) hs
  · cases resp with
    | error e =>
      have hlen : (can_fetch_robots (Except.error e) ua).2.length =
          "robots.txt tidak bisa diambil: ".length + e.length := by
        simp [can_fetch_robots, String.length_append]
      have hp : 0 < "robots.txt tidak bisa diambil: ".length := by decide
      rw [hlen]
      omega
    | ok p =>
      obtain ⟨s, b⟩ := p
      by_cases hs : s = 200
      · subst hs
        by_cases hcond : (containsStr (lowStr b) "disallow: /" &&
            (containsStr (lowStr b) "user-agent: *" ||
             containsStr (lowStr b) ("user-agent: " ++ lowStr ua))) = true
        · have hres : can_fetch_robots (Except.ok (200, b)) ua =
              (false, "Disallow: / untuk user-agent") := by
            simp only [can_fetch_robots]
            rw [if_neg (by simp), if_pos hcond]
          rw [hres]
          decide
        · have hres : can_fetch_robots (Except.ok (200, b)) ua = (true, "allowed") := by
            simp only [can_fetch_robots]
            rw [if_neg (by simp), if_neg hcond]
          rw [hres]
          decide
      · have hres : can_fetch_robots (Except.ok (s, b)) ua =
            (true, "robots.txt tidak tersedia/200") := by
          simp only [can_fetch_robots]
          rw [if_pos hs]
        rw [hres]
        decide

/-- Claim C9: The challenge detector returns false on empty markup, and
returns true exactly when some element of the document matches one of the
anti-bot widget signatures (reCAPTCHA/hCaptcha iframe or container — e.g. a
`div` with class `g-recaptcha` anywhere), or the whitespace-normalized,
case-folded visible text contains one of the fixed human-verification
keywords as a substring. -/
theorem C9_challenge_detector (html : NodeList) :
    (detect_captcha_from_html html = true ↔
      (∃ n ∈ elemsNL html, captchaWidgetSel.any (fun s => matchesSimple s n) = true) ∨
      (∃ kw ∈ captchaKeywords, containsStr (lowStr (getTextDoc html)) kw = true)) ∧
    detect_captcha_from_html NodeList.nil = false := by
  refine ⟨?_, rfl⟩
  cases html with
  | nil =>
    constructor
    · intro h; exact absurd h (by decide)
    · rintro (⟨n, hn, _⟩ | ⟨kw, hkw, hc⟩)
      · simp [elemsNL] at hn
      · simp only [captchaKeywords, List.mem_cons, List.not_mem_nil, or_false] at hkw
        rcases hkw with h | h | h | h | h <;> subst h <;>
          exact absurd hc (by decide)
  | cons hd tl =>
    simp only [detect_captcha_from_html]
    by_cases h1 : (selectDoc (NodeList.cons hd tl) captchaWidgetSel).isEmpty = true
    · have h1' : ∀ n ∈ elemsNL (NodeList.cons hd tl),
          ¬ captchaWidgetSel.any (fun s => matchesSimple s n) = true := by
        have := List.isEmpty_iff.mp h1
        simp only [selectDoc, List.filter_eq_nil_iff] at this
        exact this
      by_cases h2 : captchaKeywords.any
          (fun k => containsStr (lowStr (getTextDoc (NodeList.cons hd tl))) k) = true
      · simp only [h1, Bool.not_true, Bool.false_eq_true, if_false, h2, if_true, true_iff]
        right
        rcases List.any_eq_true.mp h2 with ⟨kw, hkw, hc⟩
        exact ⟨kw, hkw, hc⟩
      · simp only [h1, Bool.not_true, Bool.false_eq_true, if_false, h2, if_false]
        constructor
        · intro h; exact absurd h (by decide)
        · rintro (⟨n, hn, hmatch⟩ | ⟨kw, hkw, hc⟩)
          · exact absurd hmatch (h1' n hn)
          · exact absurd (List.any_eq_true.mpr ⟨kw, hkw, hc⟩) h2
    · have h1' : ¬ selectDoc (NodeList.cons hd tl) captchaWidgetSel = [] := by
        intro h; exact h1 (by simp [h])
      simp only [selectDoc] at h1'
      have hex : ∃ n ∈ elemsNL (NodeList.cons hd tl),
          captchaWidgetSel.any (fun s => matchesSimple s n) = true := by
        by_contra hno
        push_neg at hno
        exact h1' (List.filter_eq_nil_iff.mpr (fun a ha => hno a ha))
      simp only [Bool.not_eq_true] at h1
      simp only [h1, Bool.not_false, if_true, true_iff]
      left
      exact hex

/-! ## Crawl-loop lemmas -/

/-- The loop fetches at most as many pages as it has fuel. -/
theorem crawlLoop_length_le (env : String → Except String NodeList) (cfg : CrawlConfig) :
    ∀ (n : Nat) (current : String) (dfs : List DataFrame),
      ((crawlLoop env cfg n current dfs).1).length ≤ n := by
  intro n
  induction n with
  | zero => intro c dfs; simp [crawlLoop]
  | succ n ih =>
    intro current dfs
    simp only [crawlLoop]
    cases henv : env current with
    | error e => simp [henv]
    | ok html =>
      simp only [henv]
      cases hdet : detect_captcha_from_html html with
      | true => simp [hdet]
      | false =>
        simp only [hdet, Bool.false_eq_true, if_false]
        cases hfp : cfg.follow_pagination with
        | false => simp [hfp]
        | true =>
          simp only [hfp, Bool.not_true, Bool.false_eq_true, if_false]
          cases hnext : find_next_page_url html current with
          | none => simp [hnext]
          | some nxt =>
            simp only [hnext]
            by_cases heq : nxt = current
            · simp [heq]
            · rw [if_neg heq]
              simp only [List.length_cons]
              exact Nat.succ_le_succ (ih nxt _)

/-- A non-empty loop trace starts with the URL the loop was entered on. -/
theorem crawlLoop_head (env : String → Except String NodeList) (cfg : CrawlConfig) :
    ∀ (n : Nat) (current : String) (dfs : List DataFrame),
      (crawlLoop env cfg n current dfs).1 = [] ∨
      ∃ t, (crawlLoop env cfg n current dfs).1 = current :: t := by
  intro n
  cases n with
  | zero => intro c dfs; left; simp [crawlLoop]
  | succ n =>
    intro current dfs
    right
    simp only [crawlLoop]
    cases henv : env current with
    | error e => simp only [henv]; exact ⟨[], rfl⟩
    | ok html =>
      simp only [henv]
      cases hdet : detect_captcha_from_html html with
      | true => simp only [hdet, if_true]; exact ⟨[], rfl⟩
      | false =>
        simp only [hdet, Bool.false_eq_true, if_false]
        cases hfp : cfg.follow_pagination with
        | false => simp only [hfp, Bool.not_false, if_true]; exact ⟨[], rfl⟩
        | true =>
          simp only [hfp, Bool.not_true, Bool.false_eq_true, if_false]
          cases hnext : find_next_page_url html current with
          | none => simp only [hnext]; exact ⟨[], rfl⟩
          | some nxt =>
            simp only [hnext]
            by_cases heq : nxt = current
            · rw [if_pos heq]; exact ⟨[], rfl⟩
            · rw [if_neg heq]; exact ⟨_, rfl⟩

/-- Consecutive fetched URLs always differ: a self-loop next link stops the
loop instead of being fetched again. -/
theorem crawlLoop_chain (env : String → Except String NodeList) (cfg : CrawlConfig) :
    ∀ (n : Nat) (current : String) (dfs : List DataFrame),
      List.Chain' (fun a b => a ≠ b) ((crawlLoop env cfg n current dfs).1) := by
  intro n
  induction n with
  | zero => intro c dfs; simp [crawlLoop]
  | succ n ih =>
    intro current dfs
    simp only [crawlLoop]
    cases henv : env current with
    | error e => simp [henv]
    | ok html =>
      simp only [henv]
      cases hdet : detect_captcha_from_html html with
      | true => simp [hdet]
      | false =>
        simp only [hdet, Bool.false_eq_true, if_false]
        cases hfp : cfg.follow_pagination with
        | false => simp [hfp]
        | true =>
          simp only [hfp, Bool.not_true, Bool.false_eq_true, if_false]
          cases hnext : find_next_page_url html current with
          | none => simp [hnext]
          | some nxt =>
            simp only [hnext]
            by_cases heq : nxt = current
            · simp [heq]
            · rw [if_neg heq]
              rw [List.chain'_cons']
              refine ⟨?_, ih nxt _⟩
              intro y hy
              rcases crawlLoop_head env cfg n nxt _ with h | ⟨t, h⟩
              · rw [h] at hy; cases hy
              · rw [h] at hy
                simp only [List.head?_cons, Option.mem_some_iff] at hy
                subst hy
                exact fun hcc => heq hcc.symm

/-- If the first page of the trace whose markup trips the challenge
detector is page `j+1`, the loop stops right there: the trace is `j+1`
URLs long and the accumulated result is the entry batches plus exactly the
non-empty batches of the `j` pages fetched before the challenge. -/
theorem crawlLoop_first_captcha (env : String → Except String NodeList) (cfg : CrawlConfig) :
    ∀ (n : Nat) (current : String) (dfs : List DataFrame) (j : Nat),
      j < ((crawlLoop env cfg n current dfs).1).length →
      (∀ i, i < j → captchaAt env (((crawlLoop env cfg n current dfs).1).getD i "") = false) →
      captchaAt env (((crawlLoop env cfg n current dfs).1).getD j "") = true →
      ((crawlLoop env cfg n current dfs).1).length = j + 1 ∧
      (crawlLoop env cfg n current dfs).2 =
        Except.ok (dfs ++ (((crawlLoop env cfg n current dfs).1).take j).filterMap
          (pageBatch env cfg.selector)) := by
  intro n
  induction n with
  | zero =>
    intro current dfs j hj _ _
    simp [crawlLoop] at hj
  | succ n ih =>
    intro current dfs j hj hbef hcap
    cases henv : env current with
    | error e =>
      have hstep : crawlLoop env cfg (n + 1) current dfs = ([current], Except.error e) := by
        simp [crawlLoop, henv]
      rw [hstep] at hj hcap
      have hj0 : j = 0 := by simp at hj; omega
      subst hj0
      rw [List.getD_cons_zero] at hcap
      simp only [captchaAt, henv] at hcap
      exact Bool.noConfusion hcap
    | ok html =>
      cases hdet : detect_captcha_from_html html with
      | true =>
        have hstep : crawlLoop env cfg (n + 1) current dfs = ([current], Except.ok dfs) := by
          simp [crawlLoop, henv, hdet]
        rw [hstep] at hj ⊢
        have hj0 : j = 0 := by simp at hj; omega
        subst hj0
        exact ⟨rfl, by simp⟩
      | false =>
        have hfalse : captchaAt env current = false := by
          simp only [captchaAt, henv]
          exact hdet
        set dfs2 := (if (extractPage cfg.selector html current).isEmptyDf then dfs
          else dfs ++ [insertCol0 "_source_url" (Value.str current)
            (extractPage cfg.selector html current)]) with hdfs2
        cases hfp : cfg.follow_pagination with
        | false =>
          have hstep : crawlLoop env cfg (n + 1) current dfs = ([current], Except.ok dfs2) := by
            simp [crawlLoop, henv, hdet, hfp, hdfs2]
          rw [hstep] at hj hcap
          have hj0 : j = 0 := by simp at hj; omega
          subst hj0
          rw [List.getD_cons_zero, hfalse] at hcap
          exact Bool.noConfusion hcap
        | true =>
          cases hnext : find_next_page_url html current with
          | none =>
            have hstep : crawlLoop env cfg (n + 1) current dfs = ([current], Except.ok dfs2) := by
              simp [crawlLoop, henv, hdet, hfp, hnext, hdfs2]
            rw [hstep] at hj hcap
            have hj0 : j = 0 := by simp at hj; omega
            subst hj0
            rw [List.getD_cons_zero, hfalse] at hcap
            exact Bool.noConfusion hcap
          | some nxt =>
            by_cases heq : nxt = current
            · have hstep : crawlLoop env cfg (n + 1) current dfs = ([current], Except.ok dfs2) := by
                simp [crawlLoop, henv, hdet, hfp, hnext, heq, hdfs2]
              rw [hstep] at hj hcap
              have hj0 : j = 0 := by simp at hj; omega
              subst hj0
              rw [List.getD_cons_zero, hfalse] at hcap
              exact Bool.noConfusion hcap
            · have hstep : crawlLoop env cfg (n + 1) current dfs =
                  (current :: (crawlLoop env cfg n nxt dfs2).1,
                   (crawlLoop env cfg n nxt dfs2).2) := by
                simp [crawlLoop, henv, hdet, hfp, hnext, heq, hdfs2]
              rw [hstep] at hj hbef hcap ⊢
              cases j with
              | zero =>
                rw [List.getD_cons_zero, hfalse] at hcap
                exact Bool.noConfusion hcap
              | succ j' =>
                have hj' : j' < ((crawlLoop env cfg n nxt dfs2).1).length := by
                  simp at hj; omega
                have hbef' : ∀ i, i < j' →
                    captchaAt env (((crawlLoop env cfg n nxt dfs2).1).getD i "") = false := by
                  intro i hi
                  have := hbef (i + 1) (by omega)
                  rwa [List.getD_cons_succ] at this
                have hcap' :
                    captchaAt env (((crawlLoop env cfg n nxt dfs2).1).getD j' "") = true := by
                  rwa [List.getD_cons_succ] at hcap
                obtain ⟨hlen, hsnd⟩ := ih nxt dfs2 j' hj' hbef' hcap'
                have hdfs2' : dfs2 = dfs ++ (pageBatch env cfg.selector current).toList := by
                  rw [hdfs2]
                  simp only [pageBatch, henv]
                  cases hdf : (extractPage cfg.selector html current).isEmptyDf <;> simp [hdf]
                constructor
                · simp only [List.length_cons, hlen]
                · show (crawlLoop env cfg n nxt dfs2).2 = _
                  rw [hsnd, List.take_succ_cons, filterMap_cons_toList, hdfs2',
                    List.append_assoc]

/-- Claim C7: Every crawl fetches at most `max_pages` pages, and no two
consecutively fetched URLs are equal: when the pagination resolver hands
back the current URL itself, the crawl stops without fetching that URL
again (self-loop pagination is terminal). -/
theorem C7_loop_bound (env : String → Except String NodeList) (cfg : CrawlConfig)
    (url : String) :
    (crawlTrace env cfg url).length ≤ cfg.max_pages ∧
    List.Chain' (fun a b => a ≠ b) (crawlTrace env cfg url) :=
  ⟨crawlLoop_length_le env cfg cfg.max_pages url [],
   crawlLoop_chain env cfg cfg.max_pages url []⟩

/-- Claim C3 counterexample: A crawl whose page 1 holds only a `rel=next`
pagination hint (auto-extraction finds nothing, so the page contributes no
batch) and whose page 2 trips the challenge detector: the claim demands
exactly k−1 = 1 prior batch in the result, but the crawl returns zero
batches — empty extractions are dropped, so "exactly k−1 batches" fails. -/
theorem C3_cex :
    detect_captcha_from_html c3Page2 = true ∧
    detect_captcha_from_html c3Page1 = false ∧
    crawlTrace c3Env cfg3 "http://x/p1" = ["http://x/p1", "http://x/p2"] ∧
    crawlCollected c3Env cfg3 "http://x/p1" = Except.ok [] ∧
    multi_page_scrape c3Env cfg3 "http://x/p1" = Except.ok (Sum.inl DataFrame.empty) ∧
    ([] : List DataFrame).length ≠ 2 - 1 :=
  ⟨rfl, rfl, rfl, rfl, rfl, by decide⟩

/-- Claim C3 amended: If the challenge detector first fires on page
k = j+1 of the crawl (and not on any earlier page), then exactly k pages
are fetched — no page after page k — and the returned result holds, in
order, exactly the non-empty batches of the k−1 prior pages (a prior page
whose extraction was empty contributes no batch). -/
theorem C3_amended (env : String → Except String NodeList) (cfg : CrawlConfig)
    (url : String) (j : Nat)
    (hj : j < (crawlTrace env cfg url).length)
    (hbef : ∀ i, i < j → captchaAt env ((crawlTrace env cfg url).getD i "") = false)
    (hcap : captchaAt env ((crawlTrace env cfg url).getD j "") = true) :
    (crawlTrace env cfg url).length = j + 1 ∧
    crawlCollected env cfg url =
      Except.ok (((crawlTrace env cfg url).take j).filterMap (pageBatch env cfg.selector)) ∧
    multi_page_scrape env cfg url =
      Except.ok (mergeResult (((crawlTrace env cfg url).take j).filterMap
        (pageBatch env cfg.selector))) := by
  obtain ⟨hlen, hsnd⟩ := crawlLoop_first_captcha env cfg cfg.max_pages url [] j hj hbef hcap
  refine ⟨hlen, ?_, ?_⟩
  · unfold crawlCollected
    rw [hsnd]
    simp [crawlTrace]
  · unfold multi_page_scrape
    rw [hsnd]
    simp [crawlTrace]

/-- Claim C3 amended witness: In a concrete crawl whose page 1 yields a
batch and paginates to a challenge page 2 (k = 2), exactly two pages are
fetched and the result holds exactly page 1's batch. -/
theorem C3_amended_witness :
    (crawlTrace wEnv cfg3 "http://x/p1").length = 1 + 1 ∧
    crawlCollected wEnv cfg3 "http://x/p1" =
      Except.ok (((crawlTrace wEnv cfg3 "http://x/p1").take 1).filterMap
        (pageBatch wEnv cfg3.selector)) ∧
    multi_page_scrape wEnv cfg3 "http://x/p1" =
      Except.ok (mergeResult (((crawlTrace wEnv cfg3 "http://x/p1").take 1).filterMap
        (pageBatch wEnv cfg3.selector))) :=
  C3_amended wEnv cfg3 "http://x/p1" 1 (by decide)
    (by
      intro i hi
      have h0 : i = 0 := Nat.lt_one_iff.mp hi
      subst h0
      decide)
    (by decide)

/-- The heading collection of the source equals its spec restatement. -/
theorem headingRecords_eq (html : NodeList) :
    headingRecords html = headingRecordsSpec html := by
  unfold headingRecords headingRecordsSpec
  rw [filter_filterMap_eq]
  apply List.filterMap_congr
  intro n _
  cases htag : tagOf n with
  | none => simp [htag]
  | some t =>
    simp only [htag]
    by_cases h1 : t = "h1"
    · subst h1; simp
    · by_cases h2 : t = "h2"
      · subst h2; simp
      · by_cases h3 : t = "h3"
        · subst h3; simp
        · simp [h1, h2, h3]

/-- The paragraph collection of the source equals its spec restatement. -/
theorem paragraphRecords_eq (html : NodeList) :
    paragraphRecords html = paragraphRecordsSpec html := by
  unfold paragraphRecords paragraphRecordsSpec
  rw [filter_filterMap_eq]
  apply List.filterMap_congr
  intro n _
  by_cases hp : tagOf n = some "p"
  · simp [hp]
  · simp [hp]

/-- The link collection of the source equals its spec restatement. -/
theorem linkRecords_eq (html : NodeList) (base_url : Option String) :
    linkRecords html base_url = linkRecordsSpec html base_url := by
  unfold linkRecords linkRecordsSpec
  rw [map_filter_eq]
  apply List.filterMap_congr
  intro n _
  by_cases ha : tagOf n = some "a" ∧ (attrOf n "href").isSome
  · simp [hasAttr, ha, ha.1, ha.2]
  · rw [if_neg ha]
    rw [if_neg]
    simp only [Bool.and_eq_true, beq_iff_eq, hasAttr]
    intro hc
    exact ha hc

/-- Claim C6: Heuristic auto-extraction is exactly its specification:
whole-document table discovery runs first, and any table present yields
the concatenation of all tables and nothing else; otherwise the result
holds every level-1–3 heading and every paragraph in document order
(dropping empty-text nodes) followed by every anchor with an `href`
(always included, even with empty visible text) with the target resolved
against the base URL. -/
theorem C6_auto_extraction (html : NodeList) (base_url : Option String) :
    auto_extract html base_url = autoExtractSpec html base_url := by
  unfold auto_extract autoExtractSpec pd_read_html
  by_cases h : (tableElems html).isEmpty = true
  · simp [h, headingRecords_eq, paragraphRecords_eq, linkRecords_eq]
  · have h' : ((tableElems html).map tableToDf).isEmpty = false := by
      cases h5 : tableElems html with
      | nil => exact absurd (by simp [h5]) h
      | cons a l => simp
    simp [h, h']
